import Mathlib

/-!
Shallow embedding of the attribute-resolution core of the repository:
  * `src/crates/bevy_macro_utils/src/attrs.rs` (literal extractors),
  * `src/crates/bevy_reflect/bevy_reflect_derive/src/field_attributes.rs`
    (reflect-field descriptor resolver),
  * `src/crates/bevy_ecs/macros/src/component.rs` (storage selector).

The host AST (`syn`) is out of scope of the source excerpt; its node shapes
(`Meta`, `MetaNameValue`, `Lit`, `Expr`, `Path`) are embedded as plain
inductive types, and `syn`'s path grammar is modelled restricted to plain
identifier segments separated by `::` — enough to distinguish the strings the
resolvers compare against ("Table", "SparseSet", function names) from text
that does not parse as a path at all.
-/

namespace Bevy

/-- `bevy_macro_utils::Symbol`: a plain attribute-name string. -/
abbrev Symbol := String

/-- `syn::Path` without leading colons or generic arguments: the list of
`::`-separated segments. The resolvers only ever query it via `is_ident`. -/
abbrev SynPath := List String

/-- `syn::Path::is_ident`: true exactly when the path is one single segment
equal to the given identifier. -/
def SynPath.is_ident (p : SynPath) (s : String) : Bool :=
  match p with
  | [seg] => seg == s
  | _ => false

/-- Render a path back to tokens, as `ToTokens` does (segments joined by `::`). -/
def SynPath.toTokens (p : SynPath) : String :=
  String.intercalate "::" p

/-- `syn::Lit` narrowed to the variants the extractors distinguish: string
literals, bool literals, and every other literal kind collapsed into `Other`
(carrying its token text, used only in diagnostics). -/
inductive Lit where
  | Str (s : String)
  | Bool (b : Bool)
  | Other (tokens : String)
deriving DecidableEq, Repr

/-- `syn::Expr` narrowed to the variants the resolvers distinguish: a path
expression, a literal expression, and everything else collapsed into `Other`
(carrying its token text, used only in diagnostics). -/
inductive Expr where
  | Path (p : SynPath)
  | Lit (l : Lit)
  | Other (tokens : String)
deriving DecidableEq, Repr

/-- Token rendering of a literal, for error messages. -/
def Lit.toTokens : Lit → String
  | .Str s => "\"" ++ s ++ "\""
  | .Bool true => "true"
  | .Bool false => "false"
  | .Other tokens => tokens

/-- Token rendering of an expression, for error messages. -/
def Expr.toTokens : Expr → String
  | .Path p => p.toTokens
  | .Lit l => l.toTokens
  | .Other tokens => tokens

/-- `syn::Meta`: the attribute-tree node union — bare path, name/value pair,
or a nested list of further nodes. -/
inductive Meta where
  | Path (p : SynPath)
  | NameValue (path : SynPath) (value : Expr)
  | List (path : SynPath) (nested : List Meta)

/-- `syn::Meta::path()`: the head path of any node kind. -/
def Meta.getPath : Meta → SynPath
  | .Path p => p
  | .NameValue p _ => p
  | .List p _ => p

/-- `syn::MetaNameValue`: a `path = value` pair. -/
structure MetaNameValue where
  path : SynPath
  value : Expr
deriving DecidableEq, Repr

/-- `syn::Attribute`: one `#[...]` annotation on a declaration, reduced to
its `Meta` payload (spans are out of scope). -/
structure Attribute where
  meta : Meta

/-- `syn::Attribute::path()`. -/
def Attribute.path (a : Attribute) : SynPath := a.meta.getPath

/-- `syn::Error`, keeping what the resolvers observe: `combine` appends the
second error's messages, so the message list length is the number of
collected diagnostics. -/
structure SynError where
  messages : List String
deriving DecidableEq, Repr

/-- `syn::Error::new` / `new_spanned` (the span is out of scope). -/
def SynError.new (msg : String) : SynError := ⟨[msg]⟩

/-- `syn::Error::combine`. -/
def SynError.combine (e other : SynError) : SynError :=
  ⟨e.messages ++ other.messages⟩

/-- ASCII model of a Rust identifier character (non-initial position). -/
def isIdentRest (c : Char) : Bool := c.isAlphanum || c == '_'

/-- ASCII model of a Rust identifier start character. -/
def isIdentStart (c : Char) : Bool := c.isAlpha || c == '_'

/-- ASCII model of a valid Rust identifier. -/
def isValidIdent (s : String) : Bool :=
  match s.toList with
  | [] => false
  | c :: cs => isIdentStart c && cs.all isIdentRest

/-- Split a character stream into `::`-separated segments (structurally
recursive, so concrete inputs evaluate definitionally). -/
def splitPathSegs : List Char → List Char → List String
  | [], acc => [String.mk acc.reverse]
  | ':' :: ':' :: rest, acc => String.mk acc.reverse :: splitPathSegs rest []
  | c :: rest, acc => splitPathSegs rest (c :: acc)

/-- Model of `syn`'s string-to-path parse (`LitStr::parse::<Path>` /
`LitStr::parse::<ExprPath>`): succeeds exactly when the text is a sequence of
valid identifiers separated by `::`; anything else (empty text, digits-first
tokens, spaces, punctuation) fails. -/
def parseSynPath (s : String) : Option SynPath :=
  let segs := splitPathSegs s.toList []
  if segs.all isValidIdent then some segs else none

/-! ### `bevy_macro_utils/src/attrs.rs`: the literal extractors -/

/-- `get_lit_str`: narrow a literal to a string literal, or report the
expected shape. -/
def get_lit_str (attr_name : Symbol) (lit : Lit) : Except SynError String :=
  match lit with
  | .Str s => .ok s
  | _ =>
    .error (SynError.new
      ("expected " ++ attr_name ++ " attribute to be a string: `" ++
        attr_name ++ " = \"...\"`"))

/-- `get_lit_str_value`: narrow a name/value pair's value to a string
literal, or report the expected shape. -/
def get_lit_str_value (meta_name_value : MetaNameValue) : Except SynError String :=
  match meta_name_value.value with
  | .Lit (.Str s) => .ok s
  | _expr =>
    .error (SynError.new
      ("expected attribute to be a string: `" ++
        meta_name_value.path.toTokens ++ " = \"...\"`"))

/-- `get_lit_bool`: narrow a literal to a bool literal, or report the
expected shape. -/
def get_lit_bool (attr_name : Symbol) (lit : Lit) : Except SynError Bool :=
  match lit with
  | .Bool b => .ok b
  | _ =>
    .error (SynError.new
      ("expected " ++ attr_name ++
        " attribute to be a bool value, `true` or `false`: `" ++
        attr_name ++ " = ...`"))

/-- `get_lit_bool_value`: narrow a name/value pair's value to a bool literal.
The error message is the source's verbatim: it says "expected attribute to be
a string", copy-pasted from `get_lit_str_value`. -/
def get_lit_bool_value (meta_name_value : MetaNameValue) : Except SynError Bool :=
  match meta_name_value.value with
  | .Lit (.Bool b) => .ok b
  | _expr =>
    .error (SynError.new
      ("expected attribute to be a string: `" ++
        meta_name_value.path.toTokens ++ " = \"...\"`"))

/-! ### `bevy_reflect_derive/src/field_attributes.rs` -/

/-- `REFLECT_ATTRIBUTE_NAME` (crate constant of `bevy_reflect_derive`). -/
def REFLECT_ATTRIBUTE_NAME : String := "reflect"

/-- `IGNORE_SERIALIZATION_ATTR`. -/
def IGNORE_SERIALIZATION_ATTR : String := "skip_serializing"

/-- `IGNORE_ALL_ATTR`. -/
def IGNORE_ALL_ATTR : String := "ignore"

/-- `DEFAULT_ATTR`. -/
def DEFAULT_ATTR : String := "default"

/-- `ReflectIgnoreBehavior`: tri-state visibility control for a field. -/
inductive ReflectIgnoreBehavior where
  | None
  | IgnoreSerialization
  | IgnoreAlways
deriving DecidableEq, Repr

/-- `ReflectIgnoreBehavior::is_active`. -/
def ReflectIgnoreBehavior.is_active : ReflectIgnoreBehavior → Bool
  | .None | .IgnoreSerialization => true
  | .IgnoreAlways => false

/-- `ReflectIgnoreBehavior::is_ignored`. -/
def ReflectIgnoreBehavior.is_ignored (self : ReflectIgnoreBehavior) : Bool :=
  !self.is_active

/-- `DefaultBehavior`: how a field's value is synthesized when absent. -/
inductive DefaultBehavior where
  | Required
  | Default
  | Func (path : SynPath)
deriving DecidableEq, Repr

/-- `ReflectFieldAttr`: the reflect-field accumulator. `Default` derives to
`{ ignore := .None, default := .Required }`. -/
structure ReflectFieldAttr where
  ignore : ReflectIgnoreBehavior
  default : DefaultBehavior
deriving DecidableEq, Repr

/-- `ReflectFieldAttr::default()` (named `mkDefault` here because Lean
reserves the projection name `ReflectFieldAttr.default` for the field). -/
def ReflectFieldAttr.mkDefault : ReflectFieldAttr :=
  { ignore := .None, default := .Required }

/-- `ReflectFieldAttr::set_ignore`: Rust mutates `self` and returns
`Result<(), syn::Error>`; embedded as returning the new accumulator paired
with the result. -/
def ReflectFieldAttr.set_ignore (self : ReflectFieldAttr) (_path : SynPath)
    (behavior : ReflectIgnoreBehavior) : ReflectFieldAttr × Except SynError Unit :=
  if self.ignore = ReflectIgnoreBehavior.None then
    ({ self with ignore := behavior }, .ok ())
  else
    (self, .error (SynError.new
      ("Only one of ['" ++ IGNORE_SERIALIZATION_ATTR ++ "','" ++
        IGNORE_ALL_ATTR ++ "'] is allowed")))

/-- `parse_name_value`: handle a `name = value` node under the reflect
namespace. The string-literal arm re-parses the string as a path
(`lit_str.parse()?`); its parse failure is propagated as the error of the
source's `?` (message modelled as "expected identifier"). -/
def parse_name_value (args : ReflectFieldAttr) (pair : MetaNameValue) :
    ReflectFieldAttr × Except SynError Unit :=
  if pair.path.is_ident DEFAULT_ATTR then
    match pair.value with
    | .Path p => ({ args with default := .Func p }, .ok ())
    | .Lit (.Str lit_str) =>
      match parseSynPath lit_str with
      | some p => ({ args with default := .Func p }, .ok ())
      | none => (args, .error (SynError.new "expected identifier"))
    | expr =>
      (args, .error (SynError.new
        ("expected a string literal containing the name of a function, but found: " ++
          expr.toTokens)))
  else
    (args, .error (SynError.new
      ("unknown attribute parameter: " ++ pair.path.toTokens)))

mutual

/-- `parse_meta`: recursive dispatch over one attribute-tree node. The
`Meta::List` arm with the reflect head runs `syn`'s `parse_nested_meta`,
whose loop aborts at the first child on which the callback errs
(`logic(...)?` in `syn`); `parse_nested_reflect` embeds that loop. -/
def parse_meta (args : ReflectFieldAttr) (meta : Meta) :
    ReflectFieldAttr × Except SynError Unit :=
  match meta with
  | .Path p =>
    if p.is_ident IGNORE_SERIALIZATION_ATTR then
      args.set_ignore p ReflectIgnoreBehavior.IgnoreSerialization
    else if p.is_ident IGNORE_ALL_ATTR then
      args.set_ignore p ReflectIgnoreBehavior.IgnoreAlways
    else if p.is_ident DEFAULT_ATTR then
      ({ args with default := .Default }, .ok ())
    else
      (args, .error (SynError.new
        ("unknown attribute parameter: " ++ p.toTokens)))
  | .NameValue p v => parse_name_value args ⟨p, v⟩
  | .List p nested =>
    if !(p.is_ident REFLECT_ATTRIBUTE_NAME) then
      (args, .error (SynError.new "unexpected property"))
    else
      parse_nested_reflect args nested

/-- The `list.parse_nested_meta(...)` loop of `parse_meta`: each nested node
is re-dispatched through `parse_meta` (the callback reconstructs it as a
name/value pair, a list, or a bare path); the loop stops at the first error. -/
def parse_nested_reflect (args : ReflectFieldAttr) (items : List Meta) :
    ReflectFieldAttr × Except SynError Unit :=
  match items with
  | [] => (args, .ok ())
  | m :: rest =>
    match parse_meta args m with
    | (args2, .ok _) => parse_nested_reflect args2 rest
    | (args2, .error e) => (args2, .error e)

end

/-- The error-combining loop body of `parse_field_attrs`: fold state is the
accumulator plus the optional combined error. -/
def parse_field_attrs_step (acc : ReflectFieldAttr × Option SynError)
    (attr : Attribute) : ReflectFieldAttr × Option SynError :=
  match parse_meta acc.1 attr.meta with
  | (args2, .ok _) => (args2, acc.2)
  | (args2, .error err) =>
    match acc.2 with
    | some error => (args2, some (error.combine err))
    | Option.none => (args2, some err)

/-- `parse_field_attrs`: filter to the reflect namespace, walk each
attribute, combining errors across attributes while keeping the partially
mutated accumulator; err with the combined set when any attribute failed. -/
def parse_field_attrs (attrs : List Attribute) : Except SynError ReflectFieldAttr :=
  let filtered := attrs.filter (fun a => a.path.is_ident REFLECT_ATTRIBUTE_NAME)
  let res := filtered.foldl parse_field_attrs_step (ReflectFieldAttr.mkDefault, Option.none)
  match res with
  | (args, Option.none) => .ok args
  | (_, some error) => .error error

/-! ### `bevy_ecs/macros/src/component.rs` -/

/-- `COMPONENT`. -/
def COMPONENT : Symbol := "component"

/-- `STORAGE`. -/
def STORAGE : Symbol := "storage"

/-- `TABLE` (value for the `storage` attribute). -/
def TABLE : String := "Table"

/-- `SPARSE_SET` (value for the `storage` attribute). -/
def SPARSE_SET : String := "SparseSet"

/-- `StorageTy`. -/
inductive StorageTy where
  | Table
  | SparseSet
deriving DecidableEq, Repr

/-- `Attrs`: the storage-selector accumulator. -/
structure Attrs where
  storage : StorageTy
deriving DecidableEq, Repr

/-- Outcome of `parse_component_attr`: Rust returns `Result<Attrs>`, but the
body contains a reachable `todo!()`, so the embedding adds a third outcome
recording that the code panics instead of returning. -/
inductive CompOutcome where
  | ok (attrs : Attrs)
  | err (e : SynError)
  | panicked
deriving DecidableEq, Repr

/-- The `attr.parse_nested_meta(|meta| ...)` callback body of
`parse_component_attr`, on one nested node. `meta.value()?` requires the
`name = value` form; `content.parse::<LitStr>()?` requires a string-literal
value; `lit.parse::<Path>()` then matches `Ok` against the two spellings,
errs on any other path, and hits `todo!()` (a panic) on `Err`. -/
def component_nested_meta (_attrs : Attrs) (meta : Meta) : CompOutcome :=
  if meta.getPath.is_ident STORAGE then
    match meta with
    | .NameValue _ (.Lit (.Str lit)) =>
      match parseSynPath lit with
      | some path =>
        if path.is_ident TABLE then .ok { storage := StorageTy.Table }
        else if path.is_ident SPARSE_SET then .ok { storage := StorageTy.SparseSet }
        else
          .err (SynError.new
            ("Invalid storage type '" ++ path.toTokens ++ "', expected '" ++
              TABLE ++ "' or '" ++ SPARSE_SET ++ "'."))
      | Option.none => .panicked
    | .NameValue _ _ =>
      .err (SynError.new "expected string literal")
    | _ =>
      .err (SynError.new "expected `=`")
  else
    .err (SynError.new
      ("unknown component attribute `" ++ meta.getPath.toTokens ++ "`"))

/-- The `parse_nested_meta` loop over one `#[component(...)]` attribute's
nested nodes: stops at the first error (or panic). -/
def component_nested_list (attrs : Attrs) (items : List Meta) : CompOutcome :=
  match items with
  | [] => .ok attrs
  | m :: rest =>
    match component_nested_meta attrs m with
    | .ok a2 => component_nested_list a2 rest
    | r => r

/-- `attr.parse_nested_meta` on one attribute: requires the list form
`#[component(...)]` (`syn` errs otherwise). -/
def component_attr (attrs : Attrs) (a : Attribute) : CompOutcome :=
  match a.meta with
  | .List _ items => component_nested_list attrs items
  | _ => .err (SynError.new "expected attribute arguments in parentheses")

/-- The `for attr in ... { attr.parse_nested_meta(...)? }` loop of
`parse_component_attr`: the `?` short-circuits at the first failing
attribute. -/
def parse_component_go (attrs : Attrs) (l : List Attribute) : CompOutcome :=
  match l with
  | [] => .ok attrs
  | a :: rest =>
    match component_attr attrs a with
    | .ok a2 => parse_component_go a2 rest
    | r => r

/-- `parse_component_attr`: start from `Table` storage, fold over the
attributes whose head is `component`. -/
def parse_component_attr (ast_attrs : List Attribute) : CompOutcome :=
  parse_component_go { storage := StorageTy.Table }
    (ast_attrs.filter (fun a => a.path.is_ident COMPONENT))

/-! ### Helpers for stating message properties -/

/-- Character-list matching at the head of a stream. -/
def matchesAt : List Char → List Char → Bool
  | [], _ => true
  | _ :: _, [] => false
  | a :: as, b :: bs => a == b && matchesAt as bs

/-- Does the pattern occur somewhere in the stream? -/
def occursIn (pat : List Char) : List Char → Bool
  | [] => matchesAt pat []
  | c :: rest => matchesAt pat (c :: rest) || occursIn pat rest

/-- Substring test on strings. -/
def strContains (s pat : String) : Bool :=
  occursIn pat.toList s.toList

/-! ### Claims -/

/-- C7: for every ignore state `s` in {None, IgnoreSerialization,
IgnoreAlways}, `is_active s` and `is_ignored s` are exact logical
complements: exactly one of the two predicates is true. -/
theorem is_active_is_ignored_complement (s : ReflectIgnoreBehavior) :
    (s.is_active = true ∧ s.is_ignored = false) ∨
    (s.is_active = false ∧ s.is_ignored = true) := by
  cases s <;>
    simp [ReflectIgnoreBehavior.is_active, ReflectIgnoreBehavior.is_ignored]

/-- C10: `set_ignore` errs exactly when the accumulator's ignore field is not
`None` at the time of the call; on error the accumulator is returned
unchanged, and on success only the ignore field changes, to exactly the
requested behavior. -/
theorem set_ignore_exact (a : ReflectFieldAttr) (p : SynPath)
    (b : ReflectIgnoreBehavior) :
    (a.ignore = ReflectIgnoreBehavior.None →
      a.set_ignore p b = ({ a with ignore := b }, Except.ok ())) ∧
    (a.ignore ≠ ReflectIgnoreBehavior.None →
      a.set_ignore p b = (a, Except.error (SynError.new
        ("Only one of ['" ++ IGNORE_SERIALIZATION_ATTR ++ "','" ++
          IGNORE_ALL_ATTR ++ "'] is allowed")))) := by
  constructor <;> intro h <;> simp [ReflectFieldAttr.set_ignore, h]

/-- C3: starting from an accumulator whose ignore slot is unset, applying any
ignore flavor and then any second ignore flavor always makes the second
`set_ignore` return the conflicting-option error, whether or not the two
flavors are equal. -/
theorem set_ignore_second_always_conflicts (a : ReflectFieldAttr)
    (p1 p2 : SynPath) (b1 b2 : ReflectIgnoreBehavior)
    (h0 : a.ignore = ReflectIgnoreBehavior.None)
    (h1 : b1 = ReflectIgnoreBehavior.IgnoreSerialization ∨
          b1 = ReflectIgnoreBehavior.IgnoreAlways)
    (h2 : b2 = ReflectIgnoreBehavior.IgnoreSerialization ∨
          b2 = ReflectIgnoreBehavior.IgnoreAlways) :
    (a.set_ignore p1 b1).2 = Except.ok () ∧
    ((a.set_ignore p1 b1).1.set_ignore p2 b2).2 =
      Except.error (SynError.new
        ("Only one of ['" ++ IGNORE_SERIALIZATION_ATTR ++ "','" ++
          IGNORE_ALL_ATTR ++ "'] is allowed")) := by
  rcases h1 with h1 | h1 <;> rcases h2 with h2 | h2 <;> subst h1 <;> subst h2 <;>
    simp [ReflectFieldAttr.set_ignore, h0]

/-- Witness for C3 at a concrete input: a fresh accumulator, the `ignore`
flavor twice. -/
theorem set_ignore_second_always_conflicts_witness :
    (ReflectFieldAttr.mkDefault.set_ignore ["ignore"]
        ReflectIgnoreBehavior.IgnoreAlways).2 = Except.ok () ∧
    ((ReflectFieldAttr.mkDefault.set_ignore ["ignore"]
        ReflectIgnoreBehavior.IgnoreAlways).1.set_ignore ["ignore"]
        ReflectIgnoreBehavior.IgnoreAlways).2 =
      Except.error (SynError.new
        ("Only one of ['" ++ IGNORE_SERIALIZATION_ATTR ++ "','" ++
          IGNORE_ALL_ATTR ++ "'] is allowed")) :=
  set_ignore_second_always_conflicts ReflectFieldAttr.mkDefault ["ignore"]
    ["ignore"] _ _ rfl (Or.inr rfl) (Or.inr rfl)

/-- C5: under the reflect `default` key, the string-literal form
`default = "make_value"` and the bare path-expression form
`default = make_value` resolve to the same representation
`DefaultBehavior.Func` carrying the path `make_value`. -/
theorem default_func_forms_agree (args : ReflectFieldAttr) :
    parse_name_value args ⟨["default"], Expr.Lit (Lit.Str "make_value")⟩ =
      ({ args with default := DefaultBehavior.Func ["make_value"] },
        Except.ok ()) ∧
    parse_name_value args ⟨["default"], Expr.Path ["make_value"]⟩ =
      ({ args with default := DefaultBehavior.Func ["make_value"] },
        Except.ok ()) :=
  ⟨rfl, rfl⟩

/-- C9: a `List` node whose head identifier differs from the reflect
namespace identifier makes `parse_meta` return the hard error "unexpected
property" with the accumulator untouched, whatever the list's children are
(they are never visited). -/
theorem foreign_list_unexpected_property (args : ReflectFieldAttr)
    (p : SynPath) (children : List Meta)
    (h : p.is_ident REFLECT_ATTRIBUTE_NAME = false) :
    parse_meta args (Meta.List p children) =
      (args, Except.error (SynError.new "unexpected property")) := by
  simp [parse_meta, h]

/-- Witness for C9 at a concrete input: a `serde(...)` group under reflect
resolution. -/
theorem foreign_list_unexpected_property_witness :
    parse_meta ReflectFieldAttr.mkDefault
        (Meta.List ["serde"] [Meta.Path ["ignore"]]) =
      (ReflectFieldAttr.mkDefault,
        Except.error (SynError.new "unexpected property")) :=
  foreign_list_unexpected_property ReflectFieldAttr.mkDefault ["serde"]
    [Meta.Path ["ignore"]] rfl

/-- C8: a declaration with no attribute under the resolver's namespace
resolves to the default accumulator with zero errors: `Table` storage for the
storage selector, and `ignore = None` with `default = Required` for the
reflect-field descriptor. -/
theorem no_relevant_annotations_default (attrs : List Attribute) :
    ((∀ a ∈ attrs, a.path.is_ident REFLECT_ATTRIBUTE_NAME = false) →
      parse_field_attrs attrs =
        Except.ok { ignore := ReflectIgnoreBehavior.None,
                    default := DefaultBehavior.Required }) ∧
    ((∀ a ∈ attrs, a.path.is_ident COMPONENT = false) →
      parse_component_attr attrs =
        CompOutcome.ok { storage := StorageTy.Table }) := by
  constructor <;> intro h
  · have hf : attrs.filter
        (fun a => a.path.is_ident REFLECT_ATTRIBUTE_NAME) = [] := by
      rw [List.filter_eq_nil_iff]
      intro a ha
      simp [h a ha]
    simp [parse_field_attrs, hf, ReflectFieldAttr.mkDefault]
  · have hf : attrs.filter (fun a => a.path.is_ident COMPONENT) = [] := by
      rw [List.filter_eq_nil_iff]
      intro a ha
      simp [h a ha]
    simp [parse_component_attr, hf, parse_component_go]

/-- Witness for C8 at a concrete input: one annotation under a foreign
namespace (`serde`). -/
theorem no_relevant_annotations_default_witness :
    parse_field_attrs [⟨Meta.Path ["serde"]⟩] =
      Except.ok { ignore := ReflectIgnoreBehavior.None,
                  default := DefaultBehavior.Required } ∧
    parse_component_attr [⟨Meta.Path ["serde"]⟩] =
      CompOutcome.ok { storage := StorageTy.Table } := by
  refine ⟨(no_relevant_annotations_default [⟨Meta.Path ["serde"]⟩]).1 ?_,
          (no_relevant_annotations_default [⟨Meta.Path ["serde"]⟩]).2 ?_⟩ <;>
    · intro a ha
      rw [List.mem_singleton] at ha
      subst ha
      rfl

/-- C4: `storage = "Table"` and complete absence of a `storage` attribute
produce the same `StorageTy` value (`Table`); `storage = "SparseSet"`
produces `SparseSet`; and `storage = "Unknown"` fails with an error message
naming both valid spellings "Table" and "SparseSet". -/
theorem storage_resolution :
    parse_component_attr [] = CompOutcome.ok { storage := StorageTy.Table } ∧
    parse_component_attr [⟨Meta.List ["component"] []⟩] =
      CompOutcome.ok { storage := StorageTy.Table } ∧
    parse_component_attr
        [⟨Meta.List ["component"]
            [Meta.NameValue ["storage"] (Expr.Lit (Lit.Str "Table"))]⟩] =
      CompOutcome.ok { storage := StorageTy.Table } ∧
    parse_component_attr
        [⟨Meta.List ["component"]
            [Meta.NameValue ["storage"] (Expr.Lit (Lit.Str "SparseSet"))]⟩] =
      CompOutcome.ok { storage := StorageTy.SparseSet } ∧
    parse_component_attr
        [⟨Meta.List ["component"]
            [Meta.NameValue ["storage"] (Expr.Lit (Lit.Str "Unknown"))]⟩] =
      CompOutcome.err (SynError.new
        "Invalid storage type 'Unknown', expected 'Table' or 'SparseSet'.") ∧
    strContains
        "Invalid storage type 'Unknown', expected 'Table' or 'SparseSet'."
        "Table" = true ∧
    strContains
        "Invalid storage type 'Unknown', expected 'Table' or 'SparseSet'."
        "SparseSet" = true := by
  refine ⟨rfl, rfl, rfl, rfl, rfl, ?_, ?_⟩ <;> decide

/-- C2 counterexample: one `#[reflect(ignore, badkey, ignore)]` attribute
group holds two independently malformed nodes — an unknown key and a
conflicting second ignore flag — yet resolution returns an error set with
exactly one entry (the unknown key), not two: the nested-walk loop stops at
the first failing child, so the conflicting ignore flag is never visited. -/
theorem grouped_malformed_pair_single_error :
    parse_field_attrs
        [⟨Meta.List ["reflect"]
            [Meta.Path ["ignore"], Meta.Path ["badkey"],
             Meta.Path ["ignore"]]⟩] =
      Except.error ⟨["unknown attribute parameter: badkey"]⟩ ∧
    (SynError.mk ["unknown attribute parameter: badkey"]).messages.length =
      1 :=
  ⟨rfl, rfl⟩

/-- C2 amended: with the same two malformed nodes placed in two separate
`#[reflect(...)]` attributes, the resolver visits both and combines their
errors into exactly two entries; placed inside one attribute group, the walk
short-circuits at the first failing node and reports exactly one entry. -/
theorem two_malformed_nodes_error_count (bad : String)
    (h1 : bad ≠ IGNORE_SERIALIZATION_ATTR)
    (h2 : bad ≠ IGNORE_ALL_ATTR)
    (h3 : bad ≠ DEFAULT_ATTR) :
    parse_field_attrs
        [⟨Meta.List ["reflect"] [Meta.Path ["ignore"]]⟩,
         ⟨Meta.List ["reflect"] [Meta.Path [bad]]⟩,
         ⟨Meta.List ["reflect"] [Meta.Path ["ignore"]]⟩] =
      Except.error
        ⟨["unknown attribute parameter: " ++ SynPath.toTokens [bad],
          "Only one of ['" ++ IGNORE_SERIALIZATION_ATTR ++ "','" ++
            IGNORE_ALL_ATTR ++ "'] is allowed"]⟩ ∧
    parse_field_attrs
        [⟨Meta.List ["reflect"]
            [Meta.Path ["ignore"], Meta.Path [bad], Meta.Path ["ignore"]]⟩] =
      Except.error
        ⟨["unknown attribute parameter: " ++ SynPath.toTokens [bad]]⟩ := by
  simp only [IGNORE_SERIALIZATION_ATTR, IGNORE_ALL_ATTR, DEFAULT_ATTR]
    at h1 h2 h3
  constructor <;>
    simp [parse_field_attrs, parse_field_attrs_step, Attribute.path,
      Meta.getPath, parse_meta, parse_nested_reflect, parse_name_value,
      SynPath.is_ident, ReflectFieldAttr.set_ignore, ReflectFieldAttr.mkDefault,
      SynError.new, SynError.combine, IGNORE_SERIALIZATION_ATTR,
      IGNORE_ALL_ATTR, DEFAULT_ATTR, REFLECT_ATTRIBUTE_NAME, h1, h2, h3]

/-- Witness for C2's amended theorem at the concrete unknown key `badkey`. -/
theorem two_malformed_nodes_error_count_witness :
    parse_field_attrs
        [⟨Meta.List ["reflect"] [Meta.Path ["ignore"]]⟩,
         ⟨Meta.List ["reflect"] [Meta.Path ["badkey"]]⟩,
         ⟨Meta.List ["reflect"] [Meta.Path ["ignore"]]⟩] =
      Except.error
        ⟨["unknown attribute parameter: badkey",
          "Only one of ['skip_serializing','ignore'] is allowed"]⟩ ∧
    parse_field_attrs
        [⟨Meta.List ["reflect"]
            [Meta.Path ["ignore"], Meta.Path ["badkey"],
             Meta.Path ["ignore"]]⟩] =
      Except.error ⟨["unknown attribute parameter: badkey"]⟩ :=
  two_malformed_nodes_error_count "badkey" (by decide) (by decide) (by decide)

/-- C1: the claim says attribute resolution never panics, and that a
`storage` name-value whose string value does not parse as a path is captured
as a returned error; `parse_component_attr` instead reaches the source's
literal `todo!()` (a panic) on exactly that input. -/
theorem storage_unparsable_string_panics :
    parse_component_attr
        [⟨Meta.List ["component"]
            [Meta.NameValue ["storage"] (Expr.Lit (Lit.Str "not a path"))]⟩] =
      CompOutcome.panicked :=
  rfl

/-- C6: `get_lit_bool_value`, handed a value of the wrong literal kind (a
string where a bool is expected), does return a type-mismatch error with no
coercion — but the error message is the string-extractor's, copy-pasted: it
says "expected attribute to be a string" and never names the bool shape the
extractor actually expects. The other three extractors name their expected
shape correctly. -/
theorem get_lit_bool_value_message_says_string :
    get_lit_bool_value ⟨["foo"], Expr.Lit (Lit.Str "x")⟩ =
      Except.error (SynError.new
        "expected attribute to be a string: `foo = \"...\"`") ∧
    strContains "expected attribute to be a string: `foo = \"...\"`"
        "string" = true ∧
    strContains "expected attribute to be a string: `foo = \"...\"`"
        "bool" = false ∧
    get_lit_str "foo" (Lit.Bool true) =
      Except.error (SynError.new
        "expected foo attribute to be a string: `foo = \"...\"`") ∧
    get_lit_bool "foo" (Lit.Str "x") =
      Except.error (SynError.new
        "expected foo attribute to be a bool value, `true` or `false`: `foo = ...`") ∧
    get_lit_str_value ⟨["foo"], Expr.Lit (Lit.Bool true)⟩ =
      Except.error (SynError.new
        "expected attribute to be a string: `foo = \"...\"`") := by
  refine ⟨rfl, ?_, ?_, rfl, rfl, rfl⟩ <;> decide

end Bevy
